import Mathlib

/-!
# Verification of the resume-parser job client

Shallow embedding of the asynchronous job-submission / poll / result
client of the resume-parser repository, together with proofs of the
specification's testable properties.

The embedded functions follow the TypeScript sources:
* `pollLlamaParseMarkdown` — the poll loop of the llamaparse edge function;
* `uploadToLlamaParse` / `llamaUploadFile` — the two submit functions;
* `extractMarkdown` — the browser-side result normalizer;
* `loadResumeInput` — request-input selection;
* `persistAndRespond` — the llamaextract handler's post-parse persistence.

`JSON.parse` is kept abstract: the embedding is parameterized by a
function `parseJson : String → Option Json` (returning `none` when the
JavaScript call would throw a `SyntaxError`), since the client logic
depends only on the outcome of parsing, never on the parsing algorithm.
-/

/-- Model of a JavaScript JSON value (numbers as integers: no claim
depends on float arithmetic). -/
inductive Json where
  | null : Json
  | bool : Bool → Json
  | num : Int → Json
  | str : String → Json
  | arr : List Json → Json
  | obj : List (String × Json) → Json

/-- JavaScript property access `j.k` / `j?.k`: a field of an object,
`undefined` (here `none`) on every non-object or missing field. -/
def Json.getField (j : Json) (k : String) : Option Json :=
  match j with
  | Json.obj fields => fields.lookup k
  | _ => none

/-- JavaScript truthiness of a JSON value (`if (json)`). -/
def jsTruthy : Json → Bool
  | Json.null => false
  | Json.bool b => b
  | Json.num n => decide (n ≠ 0)
  | Json.str s => decide (s ≠ "")
  | Json.arr _ => true
  | Json.obj _ => true

/-- An HTTP response as seen by the client: status code and raw body. -/
structure Resp where
  status : Nat
  body : String

/-- `res.ok` of the fetch API: status in the range 200–299. -/
def Resp.ok (r : Resp) : Bool :=
  decide (200 ≤ r.status) && decide (r.status < 300)

/-- Occurrence of `pat` as a contiguous run of `s`
(JavaScript `s.includes(pat)`), on character lists. -/
def charsInclude (pat : List Char) : List Char → Bool
  | [] => pat.isEmpty
  | c :: rest => pat.isPrefixOf (c :: rest) || charsInclude pat rest

/-- JavaScript `s.includes(pat)`. -/
def strIncludes (s pat : String) : Bool :=
  charsInclude pat.data s.data

/-- JavaScript `s.slice(0, n)` on a string. -/
def strSlice (s : String) (n : Nat) : String :=
  String.mk (s.data.take n)

/-- Whitespace for JavaScript `String.prototype.trim`: the ECMA-262
WhiteSpace set (TAB, VT, FF, SP, NBSP, ZWNBSP and the Zs space
separators) together with the LineTerminator set (LF, CR, LS, PS). -/
def isJsWhitespace (c : Char) : Bool :=
  c.toNat = 0x09 || c.toNat = 0x0A || c.toNat = 0x0B || c.toNat = 0x0C ||
  c.toNat = 0x0D || c.toNat = 0x20 || c.toNat = 0xA0 || c.toNat = 0x1680 ||
  (0x2000 ≤ c.toNat && c.toNat ≤ 0x200A) ||
  c.toNat = 0x2028 || c.toNat = 0x2029 || c.toNat = 0x202F ||
  c.toNat = 0x205F || c.toNat = 0x3000 || c.toNat = 0xFEFF

/-- JavaScript `s.trim()`: strip whitespace from both ends. -/
def jsTrim (s : String) : String :=
  String.mk (((s.data.dropWhile isJsWhitespace).reverse.dropWhile isJsWhitespace).reverse)

/- Constants of the llamaparse edge function. -/

def POLL_INTERVAL_MS : Nat := 3000

def POLL_MAX_MS : Nat := 60000

/- Constant of the llamaextract edge function. -/

def PARSER_VERSION : String := "llamaextract-http-v1"

/-- Outcome of `pollLlamaParseMarkdown`: the returned markdown, or one of
the three throw sites of the source (job error with the decoded detail,
poll failure with the raw body, timeout). -/
inductive PollResult where
  | ok : String → PollResult
  | jobError : Json → PollResult
  | pollFailed : String → PollResult
  | timedOut : PollResult

/-- A run of the poll loop: its outcome plus the number of status queries
issued (`fetch` calls) and of interval sleeps performed (`setTimeout`). -/
structure PollRun where
  result : PollResult
  queries : Nat
  sleeps : Nat

/-- The success branch of the poll loop: `JSON.parse(raw)`, return
`json.markdown` when it is a string on a truthy value, otherwise fall back
to the raw body. -/
def okPayload (parseJson : String → Option Json) (raw : String) : String :=
  match parseJson raw with
  | some json =>
    if jsTruthy json then
      match json.getField "markdown" with
      | some (Json.str m) => m
      | _ => raw
    else raw
  | none => raw

/-- `await res.json().catch(() => ({}))` of the 400/404 branch. -/
def pollDetail (parseJson : String → Option Json) (body : String) : Json :=
  (parseJson body).getD (Json.obj [])

/-- `typeof detail?.detail === "string" ? detail.detail : ""`. -/
def pollMessage (parseJson : String → Option Json) (body : String) : String :=
  match (pollDetail parseJson body).getField "detail" with
  | some (Json.str s) => s
  | _ => ""

/-- The still-processing test of the 400/404 branch:
`message.includes("Job not completed yet") || message.includes("Result for Parsing Job")`. -/
def isPendingMessage (message : String) : Bool :=
  strIncludes message "Job not completed yet" || strIncludes message "Result for Parsing Job"

/-- The poll loop of `pollLlamaParseMarkdown`, from a given attempt index
and elapsed time. `env n` is the response to the `n`-th status query and
`lat n` its latency in milliseconds; `elapsed` models `Date.now() - started`.
Each pending iteration sleeps `POLL_INTERVAL_MS` before re-entering the
`while (Date.now() - started < POLL_MAX_MS)` guard. -/
def pollLlamaParseMarkdownFrom (parseJson : String → Option Json) (env : Nat → Resp)
    (lat : Nat → Nat) (attempt elapsed : Nat) : PollRun :=
  if elapsed < POLL_MAX_MS then
    let res := env attempt
    if res.ok then
      { result := PollResult.ok (okPayload parseJson res.body), queries := 1, sleeps := 0 }
    else if res.status = 400 || res.status = 404 then
      if isPendingMessage (pollMessage parseJson res.body) then
        let rest := pollLlamaParseMarkdownFrom parseJson env lat (attempt + 1)
          (elapsed + lat attempt + POLL_INTERVAL_MS)
        { result := rest.result, queries := rest.queries + 1, sleeps := rest.sleeps + 1 }
      else
        { result := PollResult.jobError (pollDetail parseJson res.body), queries := 1, sleeps := 0 }
    else
      { result := PollResult.pollFailed res.body, queries := 1, sleeps := 0 }
  else
    { result := PollResult.timedOut, queries := 0, sleeps := 0 }
termination_by POLL_MAX_MS - elapsed
decreasing_by simp only [POLL_INTERVAL_MS]; omega

/-- `pollLlamaParseMarkdown`: the loop started at attempt 0, elapsed 0. -/
def pollLlamaParseMarkdown (parseJson : String → Option Json) (env : Nat → Resp)
    (lat : Nat → Nat) : PollRun :=
  pollLlamaParseMarkdownFrom parseJson env lat 0 0

/-- The ways a submit function throws: the explicit non-success throw
(carrying the message built from the response body), the rejection of
`JSON.parse` / `res.json()` on an unparseable success body, or the
TypeError of a property access on a null parse result. -/
inductive UploadError where
  | uploadFailed : String → UploadError
  | jsonSyntaxError : UploadError
  | typeError : UploadError

/-- `llamaUploadFile` of the llamaextract edge function, given the HTTP
response to the upload request. On success the returned value models
`json?.id` — `none` when the field is absent (`undefined` in JavaScript). -/
def llamaUploadFile (parseJson : String → Option Json) (res : Resp) :
    Except UploadError (Option Json) :=
  let raw := res.body
  if !res.ok then Except.error (UploadError.uploadFailed (strSlice raw 400))
  else
    match parseJson raw with
    | none => Except.error UploadError.jsonSyntaxError
    | some json => Except.ok (json.getField "id")

/-- `uploadToLlamaParse` of the llamaparse edge function, given the HTTP
response to the upload request. The non-success throw carries the full
body (`await res.text()`), untruncated; on success the returned value
models the unguarded access `json.id`, which throws a TypeError when
`res.json()` resolved to null (`JSON.parse` never yields undefined, so
null is the only throwing case; on every other non-object value `json.id`
is undefined). -/
def uploadToLlamaParse (parseJson : String → Option Json) (res : Resp) :
    Except UploadError (Option Json) :=
  if !res.ok then Except.error (UploadError.uploadFailed res.body)
  else
    match parseJson res.body with
    | none => Except.error UploadError.jsonSyntaxError
    | some Json.null => Except.error UploadError.typeError
    | some json => Except.ok (json.getField "id")

/-- `extractMarkdown` of the browser client (`app.js`): result value in,
markdown string or `null` out. Handles the three shapes listed in the
source comment: `parsed.markdown` already a markdown string,
`parsed.markdown` a JSON string wrapping `{ markdown: ... }`, and `parsed`
itself a JSON string wrapping `{ markdown: ... }`. -/
def extractMarkdown (parseJson : String → Option Json) (result : Json) : Option String :=
  let parsedField := result.getField "parsed"
  let fromStringParsed : Option String :=
    match parsedField with
    | some (Json.str s) =>
      match parseJson s with
      | some parsedObj =>
        if jsTruthy parsedObj then
          match parsedObj.getField "markdown" with
          | some (Json.str m) => some m
          | _ => none
        else none
      | none => none
    | _ => none
  match fromStringParsed with
  | some m => some m
  | none =>
    match parsedField.bind (fun p => p.getField "markdown") with
    | some (Json.str maybe) =>
      match parseJson maybe with
      | some parsed =>
        if jsTruthy parsed then
          match parsed.getField "markdown" with
          | some (Json.str inner) => some inner
          | _ => some maybe
        else some maybe
      | none => some maybe
    | _ => none

/-- The request body of the edge functions (fields relevant to input
selection; `none` models an absent field). -/
structure ResumeRequest where
  text : Option String
  bucket : Option String
  filePath : Option String

/-- The value built by the text branch of `loadResumeInput` (the buffer is
kept as the string fed to `TextEncoder.encode`). -/
structure ResumeInput where
  buffer : String
  filename : String
  contentType : String

/-- Outcome of `loadResumeInput` before any storage I/O: an inline-text
input, a decision to download `bucket`/`filePath` from storage, or one of
its two throw sites. -/
inductive LoadResult where
  | ok : ResumeInput → LoadResult
  | download : String → String → LoadResult
  | err : String → LoadResult

/-- `loadResumeInput` up to the storage download: `body.text` is used only
when truthy with non-empty trimmed content; otherwise the Supabase client
is required, then both `bucket` and `filePath` (JavaScript truthiness: an
absent or empty string field fails the check). -/
def loadResumeInput (supabaseInit : Bool) (body : ResumeRequest) : LoadResult :=
  if (match body.text with
      | some t => decide (t ≠ "") && decide (0 < (jsTrim t).length)
      | none => false) then
    LoadResult.ok
      { buffer := body.text.getD "", filename := "resume.txt", contentType := "text/plain" }
  else if !supabaseInit then LoadResult.err "Supabase client not initialized"
  else
    match body.bucket, body.filePath with
    | some b, some f =>
      if decide (b ≠ "") && decide (f ≠ "") then LoadResult.download b f
      else LoadResult.err "Provide either `text` or (`bucket` and `filePath`)"
    | _, _ => LoadResult.err "Provide either `text` or (`bucket` and `filePath`)"

/-- The `parsed` value of the llamaextract handler:
`{ structured, jobId, source: "llamaextract" }`. -/
structure ParsedResume where
  structured : Json
  jobId : Option String

/-- The JSON body of the llamaextract handler's success response. -/
structure ServeBody where
  parsed : ParsedResume
  rawText : Option String
  resumeId : Option String
  jobId : Option String
  parserVersion : String

/-- An HTTP response of the handler, plus whether an insert error was
logged on the way. -/
structure ServeResp where
  status : Nat
  body : ServeBody
  loggedInsertError : Bool

/-- The persistence tail of the llamaextract handler (after a successful
parse): when the Supabase client exists, run the insert; on insert error
log it and leave `resumeId` null, otherwise take `data?.id ?? null`; in
every case respond 200 with the parsed result and parser version. -/
def persistAndRespond (supabaseInit : Bool) (insertResult : Except String (Option String))
    (parsed : ParsedResume) (rawText : Option String) : ServeResp :=
  let step : Option String × Bool :=
    if supabaseInit then
      match insertResult with
      | Except.error _ => (none, true)
      | Except.ok dataId => (dataId, false)
    else (none, false)
  { status := 200
    body :=
      { parsed := parsed
        rawText := rawText
        resumeId := step.1
        jobId := parsed.jobId
        parserVersion := PARSER_VERSION }
    loggedInsertError := step.2 }

/-- The JSON body of the llamaparse handler's success response, restricted
to the fields the browser normalizer inspects: `parsed` is the
`{ markdown, jobId, source }` object built around the payload returned by
the poll loop. -/
def resultOfPayload (p jid : String) : Json :=
  Json.obj [("parsed", Json.obj
    [("markdown", Json.str p), ("jobId", Json.str jid), ("source", Json.str "llamaparse")])]

/- ## Helper lemmas -/

theorem Resp.ok_false_of_notReady (r : Resp) (h : r.status = 400 ∨ r.status = 404) :
    r.ok = false := by
  rcases h with h | h <;> simp [Resp.ok, h]

theorem pollFrom_deadline (parseJson : String → Option Json) (env : Nat → Resp)
    (lat : Nat → Nat) (a e : Nat) (h : POLL_MAX_MS ≤ e) :
    pollLlamaParseMarkdownFrom parseJson env lat a e =
      { result := PollResult.timedOut, queries := 0, sleeps := 0 } := by
  unfold pollLlamaParseMarkdownFrom
  rw [if_neg (by omega)]

theorem pollFrom_step_notReady (parseJson : String → Option Json) (env : Nat → Resp)
    (lat : Nat → Nat) (a e : Nat) (he : e < POLL_MAX_MS)
    (hs : (env a).status = 400 ∨ (env a).status = 404) :
    pollLlamaParseMarkdownFrom parseJson env lat a e =
      if isPendingMessage (pollMessage parseJson (env a).body) then
        { result := (pollLlamaParseMarkdownFrom parseJson env lat (a + 1)
            (e + lat a + POLL_INTERVAL_MS)).result,
          queries := (pollLlamaParseMarkdownFrom parseJson env lat (a + 1)
            (e + lat a + POLL_INTERVAL_MS)).queries + 1,
          sleeps := (pollLlamaParseMarkdownFrom parseJson env lat (a + 1)
            (e + lat a + POLL_INTERVAL_MS)).sleeps + 1 }
      else
        { result := PollResult.jobError (pollDetail parseJson (env a).body),
          queries := 1, sleeps := 0 } := by
  have hok := Resp.ok_false_of_notReady (env a) hs
  conv_lhs => unfold pollLlamaParseMarkdownFrom
  rw [if_pos he]
  rcases hs with h | h <;> simp [hok, h]

theorem pollFrom_step_ok (parseJson : String → Option Json) (env : Nat → Resp)
    (lat : Nat → Nat) (a e : Nat) (he : e < POLL_MAX_MS) (hok : (env a).ok = true) :
    pollLlamaParseMarkdownFrom parseJson env lat a e =
      { result := PollResult.ok (okPayload parseJson (env a).body), queries := 1, sleeps := 0 } := by
  conv_lhs => unfold pollLlamaParseMarkdownFrom
  rw [if_pos he]
  simp [hok]

theorem pollFrom_allPending (parseJson : String → Option Json) (env : Nat → Resp)
    (lat : Nat → Nat)
    (hp : ∀ n, ((env n).status = 400 ∨ (env n).status = 404) ∧
      isPendingMessage (pollMessage parseJson (env n).body) = true) :
    ∀ k a e, POLL_MAX_MS - e ≤ k →
      (pollLlamaParseMarkdownFrom parseJson env lat a e).result = PollResult.timedOut := by
  intro k
  induction k with
  | zero =>
    intro a e he
    rw [pollFrom_deadline parseJson env lat a e (by omega)]
  | succ k ih =>
    intro a e he
    by_cases hlt : e < POLL_MAX_MS
    · rw [pollFrom_step_notReady parseJson env lat a e hlt (hp a).1, if_pos ((hp a).2)]
      have h3 : POLL_INTERVAL_MS = 3000 := rfl
      exact ih (a + 1) (e + lat a + POLL_INTERVAL_MS) (by omega)
    · rw [pollFrom_deadline parseJson env lat a e (by omega)]

theorem okPayload_extracts (parseJson : String → Option Json) (raw : String) :
    (∀ j m, parseJson raw = some j → jsTruthy j = true →
        j.getField "markdown" = some (Json.str m) → okPayload parseJson raw = m) ∧
    (∀ j, parseJson raw = some j →
        jsTruthy j = false ∨ (∀ m, j.getField "markdown" ≠ some (Json.str m)) →
        okPayload parseJson raw = raw) ∧
    (parseJson raw = none → okPayload parseJson raw = raw) := by
  refine ⟨?_, ?_, ?_⟩
  · intro j m hj ht hm
    simp [okPayload, hj, ht, hm]
  · intro j hj hcase
    rcases hcase with hf | hnm
    · simp [okPayload, hj, hf]
    · by_cases ht : jsTruthy j = true
      · simp only [okPayload, hj, ht, if_true]
      · simp [okPayload, hj, Bool.eq_false_iff.mpr ht]
  · intro hn
    simp [okPayload, hn]

/- ## Concrete instantiation data for the witnesses -/

def latW : Nat → Nat := fun _ => 0

def parseJsonNoneW : String → Option Json := fun _ => none

def pendingDetailW : Json := Json.obj [("detail", Json.str "Job not completed yet")]

def parseJsonPendingW : String → Option Json := fun _ => some pendingDetailW

def envPendingW : Nat → Resp := fun _ =>
  { status := 404, body := "\x7b\"detail\":\"Job not completed yet\"\x7d" }

def badDetailW : Json := Json.obj [("detail", Json.str "bad input")]

def parseJsonBadW : String → Option Json := fun _ => some badDetailW

def envBadW : Nat → Resp := fun _ => { status := 400, body := "\x7b\"detail\":\"bad input\"\x7d" }

def mdObjW : Json := Json.obj [("markdown", Json.str "md")]

def parseJsonMdW : String → Option Json := fun _ => some mdObjW

def envOkJsonW : Nat → Resp := fun _ => { status := 200, body := "\x7b\"markdown\":\"md\"\x7d" }

def envOkRawW : Nat → Resp := fun _ => { status := 200, body := "# Resume" }

def envNotJsonW : Nat → Resp := fun _ => { status := 404, body := "oops not json" }

/- ## Claim theorems -/

/-- C1: if every poll response is classified Pending (status 400 or 404
with a recognized still-processing message), the poll loop keeps polling
until the deadline and returns the TimedOut error — never a Permanent
error and never a Ready payload (`PollResult.timedOut` is distinct from
`jobError`, `pollFailed` and `ok`); moreover, the deadline check happens
before each query, so a loop state at or past the deadline issues no
query at all. -/
theorem pollLoop_allPending_timedOut (parseJson : String → Option Json) (env : Nat → Resp)
    (lat : Nat → Nat)
    (hp : ∀ n, ((env n).status = 400 ∨ (env n).status = 404) ∧
      isPendingMessage (pollMessage parseJson (env n).body) = true) :
    (pollLlamaParseMarkdown parseJson env lat).result = PollResult.timedOut ∧
      ∀ a e, POLL_MAX_MS ≤ e →
        pollLlamaParseMarkdownFrom parseJson env lat a e =
          { result := PollResult.timedOut, queries := 0, sleeps := 0 } := by
  constructor
  · exact pollFrom_allPending parseJson env lat hp POLL_MAX_MS 0 0 (by omega)
  · intro a e he
    exact pollFrom_deadline parseJson env lat a e he

/-- Witness for C1: a concrete all-pending environment (every poll answers
404 with detail "Job not completed yet") reaches the timeout. -/
theorem pollLoop_allPending_timedOut_witness :
    (pollLlamaParseMarkdown parseJsonPendingW envPendingW latW).result = PollResult.timedOut := by
  refine (pollLoop_allPending_timedOut parseJsonPendingW envPendingW latW ?_).1
  intro n
  refine ⟨Or.inr rfl, ?_⟩
  show isPendingMessage (pollMessage parseJsonPendingW
    "\x7b\"detail\":\"Job not completed yet\"\x7d") = true
  decide

/-- C2: a first poll response with status in the not-ready set {400, 404}
is classified by message content: a recognized still-processing message
makes the loop sleep one interval and continue from the next attempt
(one more query and one more sleep than the continuation), while any
other message makes the loop return the permanent job error after that
single query, with no further poll attempt and no sleep. -/
theorem pollLoop_notReady_first (parseJson : String → Option Json) (env : Nat → Resp)
    (lat : Nat → Nat) (hs : (env 0).status = 400 ∨ (env 0).status = 404) :
    (isPendingMessage (pollMessage parseJson (env 0).body) = true →
      pollLlamaParseMarkdown parseJson env lat =
        { result := (pollLlamaParseMarkdownFrom parseJson env lat 1
            (lat 0 + POLL_INTERVAL_MS)).result,
          queries := (pollLlamaParseMarkdownFrom parseJson env lat 1
            (lat 0 + POLL_INTERVAL_MS)).queries + 1,
          sleeps := (pollLlamaParseMarkdownFrom parseJson env lat 1
            (lat 0 + POLL_INTERVAL_MS)).sleeps + 1 }) ∧
    (isPendingMessage (pollMessage parseJson (env 0).body) = false →
      pollLlamaParseMarkdown parseJson env lat =
        { result := PollResult.jobError (pollDetail parseJson (env 0).body),
          queries := 1, sleeps := 0 }) := by
  have h0 : (0 : Nat) < POLL_MAX_MS := by norm_num [POLL_MAX_MS]
  have hstep := pollFrom_step_notReady parseJson env lat 0 0 h0 hs
  constructor
  · intro hpend
    unfold pollLlamaParseMarkdown
    rw [hstep, if_pos hpend]
    norm_num
  · intro hperm
    unfold pollLlamaParseMarkdown
    rw [hstep, if_neg (by simp [hperm])]

/-- Witness for C2: a 400 response whose detail "bad input" matches no
still-processing substring is returned as a permanent job error after
exactly one query. -/
theorem pollLoop_notReady_first_witness :
    pollLlamaParseMarkdown parseJsonBadW envBadW latW =
      { result := PollResult.jobError badDetailW, queries := 1, sleeps := 0 } :=
  (pollLoop_notReady_first parseJsonBadW envBadW latW (Or.inl rfl)).2 (by decide)

/-- C3: on an HTTP success response the loop returns a Ready payload in
every case: the `markdown` field when the body parses as a truthy JSON
value carrying a string `markdown` field, and the raw body itself when the
body does not parse or does not have that shape. -/
theorem pollLoop_ok_payload (parseJson : String → Option Json) (env : Nat → Resp)
    (lat : Nat → Nat) (h : (env 0).ok = true) :
    (pollLlamaParseMarkdown parseJson env lat).result =
        PollResult.ok (okPayload parseJson (env 0).body) ∧
      (∀ j m, parseJson (env 0).body = some j → jsTruthy j = true →
        j.getField "markdown" = some (Json.str m) → okPayload parseJson (env 0).body = m) ∧
      (∀ j, parseJson (env 0).body = some j →
        jsTruthy j = false ∨ (∀ m, j.getField "markdown" ≠ some (Json.str m)) →
        okPayload parseJson (env 0).body = (env 0).body) ∧
      (parseJson (env 0).body = none → okPayload parseJson (env 0).body = (env 0).body) := by
  have h0 : (0 : Nat) < POLL_MAX_MS := by norm_num [POLL_MAX_MS]
  refine ⟨?_, (okPayload_extracts parseJson (env 0).body).1,
    (okPayload_extracts parseJson (env 0).body).2.1,
    (okPayload_extracts parseJson (env 0).body).2.2⟩
  unfold pollLlamaParseMarkdown
  rw [pollFrom_step_ok parseJson env lat 0 0 h0 h]

/-- Witness for C3: a 200 response whose body parses to
`{ markdown: "md" }` yields the Ready payload "md". -/
theorem pollLoop_ok_payload_witness :
    (pollLlamaParseMarkdown parseJsonMdW envOkJsonW latW).result = PollResult.ok "md" := by
  have h := pollLoop_ok_payload parseJsonMdW envOkJsonW latW rfl
  rw [h.1, h.2.1 mdObjW "md" rfl rfl rfl]

/-- C4: when the first poll response is a success, the loop performs
exactly one query and returns the Ready payload with zero sleeps. -/
theorem pollLoop_firstReady_oneQuery (parseJson : String → Option Json) (env : Nat → Resp)
    (lat : Nat → Nat) (h : (env 0).ok = true) :
    pollLlamaParseMarkdown parseJson env lat =
      { result := PollResult.ok (okPayload parseJson (env 0).body),
        queries := 1, sleeps := 0 } := by
  have h0 : (0 : Nat) < POLL_MAX_MS := by norm_num [POLL_MAX_MS]
  unfold pollLlamaParseMarkdown
  exact pollFrom_step_ok parseJson env lat 0 0 h0 h

/-- Witness for C4: a first response of 200 with a plain-text body returns
it immediately: one query, zero sleeps. -/
theorem pollLoop_firstReady_oneQuery_witness :
    pollLlamaParseMarkdown parseJsonNoneW envOkRawW latW =
      { result := PollResult.ok "# Resume", queries := 1, sleeps := 0 } :=
  pollLoop_firstReady_oneQuery parseJsonNoneW envOkRawW latW rfl

/-- C9: a first poll response with status 400 or 404 whose body does not
parse as JSON, or whose `detail` field is not a string, yields the empty
classification message and is therefore permanent: the loop returns the
job error after that single query (no crash, no Pending retry). -/
theorem pollLoop_unparseableDetail_permanent (parseJson : String → Option Json)
    (env : Nat → Resp) (lat : Nat → Nat)
    (hs : (env 0).status = 400 ∨ (env 0).status = 404)
    (hbad : parseJson (env 0).body = none ∨
      ∀ s, (pollDetail parseJson (env 0).body).getField "detail" ≠ some (Json.str s)) :
    pollMessage parseJson (env 0).body = "" ∧
      pollLlamaParseMarkdown parseJson env lat =
        { result := PollResult.jobError (pollDetail parseJson (env 0).body),
          queries := 1, sleeps := 0 } := by
  have hmsg : pollMessage parseJson (env 0).body = "" := by
    rcases hbad with hn | hns
    · simp [pollMessage, pollDetail, hn, Json.getField, List.lookup]
    · unfold pollMessage
      cases hgf : (pollDetail parseJson (env 0).body).getField "detail" with
      | none => rfl
      | some v =>
        cases v with
        | str s => exact absurd hgf (hns s)
        | null => rfl
        | bool b => rfl
        | num n => rfl
        | arr xs => rfl
        | obj fs => rfl
  have h0 : (0 : Nat) < POLL_MAX_MS := by norm_num [POLL_MAX_MS]
  refine ⟨hmsg, ?_⟩
  unfold pollLlamaParseMarkdown
  rw [pollFrom_step_notReady parseJson env lat 0 0 h0 hs, hmsg, if_neg (by decide)]

/-- Witness for C9: a 404 response with the unparseable body
"oops not json" classifies to the empty message and the permanent job
error `{}` after one query. -/
theorem pollLoop_unparseableDetail_permanent_witness :
    pollMessage parseJsonNoneW (envNotJsonW 0).body = "" ∧
      pollLlamaParseMarkdown parseJsonNoneW envNotJsonW latW =
        { result := PollResult.jobError (Json.obj []), queries := 1, sleeps := 0 } :=
  pollLoop_unparseableDetail_permanent parseJsonNoneW envNotJsonW latW
    (Or.inr rfl) (Or.inl rfl)

/-- C5 (amended): on a success-status response both submit functions parse
the body as JSON and extract the `id` field; an unparseable body makes the
submit fail with the propagated JSON parse error; an absent `id` field
does not fail the submit — it returns an absent (`undefined`) identifier —
except that `uploadToLlamaParse`'s unguarded `json.id` throws a TypeError
when the parsed success body is JSON null (`llamaUploadFile`'s `json?.id`
returns undefined there too). -/
theorem submit_success_parse (parseJson : String → Option Json) (res : Resp)
    (hok : res.ok = true) :
    (parseJson res.body = none →
      llamaUploadFile parseJson res = Except.error UploadError.jsonSyntaxError ∧
      uploadToLlamaParse parseJson res = Except.error UploadError.jsonSyntaxError) ∧
    (∀ j, parseJson res.body = some j →
      llamaUploadFile parseJson res = Except.ok (j.getField "id")) ∧
    (parseJson res.body = some Json.null →
      uploadToLlamaParse parseJson res = Except.error UploadError.typeError) ∧
    (∀ j, parseJson res.body = some j → j ≠ Json.null →
      uploadToLlamaParse parseJson res = Except.ok (j.getField "id")) := by
  refine ⟨?_, ?_, ?_, ?_⟩
  · intro hn
    constructor <;> simp [llamaUploadFile, uploadToLlamaParse, hok, hn]
  · intro j hj
    simp [llamaUploadFile, hok, hj]
  · intro hnull
    simp [uploadToLlamaParse, hok, hnull]
  · intro j hj hne
    cases j with
    | null => exact absurd rfl hne
    | bool b => simp [uploadToLlamaParse, hok, hj]
    | num n => simp [uploadToLlamaParse, hok, hj]
    | str s => simp [uploadToLlamaParse, hok, hj]
    | arr xs => simp [uploadToLlamaParse, hok, hj]
    | obj fs => simp [uploadToLlamaParse, hok, hj]

/-- Witness for C5's amended theorem: a 200 response with the unparseable
body "not json" fails both submits with the JSON parse error. -/
theorem submit_success_parse_witness :
    llamaUploadFile parseJsonNoneW { status := 200, body := "not json" } =
        Except.error UploadError.jsonSyntaxError ∧
      uploadToLlamaParse parseJsonNoneW { status := 200, body := "not json" } =
        Except.error UploadError.jsonSyntaxError :=
  (submit_success_parse parseJsonNoneW { status := 200, body := "not json" } rfl).1 rfl

def parseJsonEmptyObjW : String → Option Json := fun _ => some (Json.obj [])

/-- Counterexample to C5 as stated: a 200 response whose body "{}" is
valid JSON without an `id` field makes `llamaUploadFile` return an absent
identifier — it does not fail with any error. -/
theorem llamaUploadFile_absentId_counterexample :
    llamaUploadFile parseJsonEmptyObjW { status := 200, body := "{}" } = Except.ok none ∧
      ∀ e, llamaUploadFile parseJsonEmptyObjW { status := 200, body := "{}" } ≠
        Except.error e := by
  have h1 : llamaUploadFile parseJsonEmptyObjW { status := 200, body := "{}" } =
      Except.ok none := rfl
  refine ⟨h1, fun e h => ?_⟩
  rw [h1] at h
  exact Except.noConfusion h

/-- C6 (amended): on a non-success status both submits fail immediately
with an error carrying the response body; the llamaextract submit
(`llamaUploadFile`) truncates the body to at most 400 characters, while
the llamaparse submit (`uploadToLlamaParse`) carries the full body
untruncated. -/
theorem submit_failure_body (parseJson : String → Option Json) (res : Resp)
    (h : res.ok = false) :
    llamaUploadFile parseJson res =
        Except.error (UploadError.uploadFailed (strSlice res.body 400)) ∧
      (strSlice res.body 400).length ≤ 400 ∧
      uploadToLlamaParse parseJson res =
        Except.error (UploadError.uploadFailed res.body) := by
  refine ⟨by simp [llamaUploadFile, h], ?_, by simp [uploadToLlamaParse, h]⟩
  simp only [strSlice, String.length, List.length_take]
  omega

/-- Witness for C6's amended theorem at a concrete 500 response. -/
theorem submit_failure_body_witness :
    llamaUploadFile parseJsonNoneW { status := 500, body := "oops" } =
        Except.error (UploadError.uploadFailed (strSlice "oops" 400)) ∧
      (strSlice "oops" 400).length ≤ 400 ∧
      uploadToLlamaParse parseJsonNoneW { status := 500, body := "oops" } =
        Except.error (UploadError.uploadFailed "oops") :=
  submit_failure_body parseJsonNoneW { status := 500, body := "oops" } rfl

def longBodyW : String := String.mk (List.replicate 401 'a')

/-- Counterexample to C6 as stated: on a 500 response with a 401-character
body, `uploadToLlamaParse` throws an error carrying the full 401-character
body, not a body truncated to 400 characters. -/
theorem uploadToLlamaParse_untruncated_counterexample :
    uploadToLlamaParse parseJsonNoneW { status := 500, body := longBodyW } =
        Except.error (UploadError.uploadFailed longBodyW) ∧ 400 < longBodyW.length := by
  refine ⟨rfl, ?_⟩
  have h : longBodyW.length = (List.replicate 401 'a').length := rfl
  rw [h, List.length_replicate]
  omega

/-- Evaluation law used for C7: on the llamaparse success response around
payload `p`, the normalizer reduces to the one-level unwrapping of `p`. -/
theorem extractMarkdown_resultOfPayload (parseJson : String → Option Json) (p jid : String) :
    extractMarkdown parseJson (resultOfPayload p jid) =
      match parseJson p with
      | some parsed =>
        if jsTruthy parsed then
          match parsed.getField "markdown" with
          | some (Json.str inner) => some inner
          | _ => some p
        else some p
      | none => some p := rfl

/-- C7: the normalizer applied to a result carrying payload `p` is total
and best-effort: a payload that is not JSON (already in expected shape, or
garbage) is returned unchanged; a string-encoded JSON payload wrapping a
string `markdown` field is unwrapped one level; a payload parsing to any
other JSON value is returned unchanged. In particular it never maps a
successful payload to a failure. -/
theorem extractMarkdown_normalizes (parseJson : String → Option Json) (p jid : String) :
    (parseJson p = none → extractMarkdown parseJson (resultOfPayload p jid) = some p) ∧
    (∀ j inner, parseJson p = some j → jsTruthy j = true →
      j.getField "markdown" = some (Json.str inner) →
      extractMarkdown parseJson (resultOfPayload p jid) = some inner) ∧
    (∀ j, parseJson p = some j →
      jsTruthy j = false ∨ (∀ inner, j.getField "markdown" ≠ some (Json.str inner)) →
      extractMarkdown parseJson (resultOfPayload p jid) = some p) := by
  refine ⟨?_, ?_, ?_⟩
  · intro hn
    rw [extractMarkdown_resultOfPayload, hn]
  · intro j inner hj ht hm
    rw [extractMarkdown_resultOfPayload, hj]
    simp [ht, hm]
  · intro j hj hcase
    rw [extractMarkdown_resultOfPayload, hj]
    rcases hcase with hf | hnm
    · simp [hf]
    · by_cases ht : jsTruthy j = true
      · simp only [ht, if_true]
      · simp [Bool.eq_false_iff.mpr ht]

/-- Witness for C7: a non-JSON payload "hello" passes through the
normalizer unchanged. -/
theorem extractMarkdown_normalizes_witness :
    extractMarkdown parseJsonNoneW (resultOfPayload "hello" "J1") = some "hello" :=
  (extractMarkdown_normalizes parseJsonNoneW "hello" "J1").1 rfl

/-- C8: in the llamaextract handler, an insert error after a successful
parse is logged, leaves `resumeId` null, and the handler still responds
200 with the parsed result and the parser version. -/
theorem persistAndRespond_insertError_still200 (e : String) (parsed : ParsedResume)
    (rawText : Option String) :
    persistAndRespond true (Except.error e) parsed rawText =
      { status := 200
        body := { parsed := parsed, rawText := rawText, resumeId := none,
                  jobId := parsed.jobId, parserVersion := PARSER_VERSION }
        loggedInsertError := true } := rfl

/-- C10: `loadResumeInput` uses `body.text` as the input bytes exactly
when it is present with non-empty trimmed content; otherwise (absent,
empty, or whitespace-only text) it requires both `bucket` and `filePath`
(present and non-empty) and fails with the provide-either error when
either is missing. -/
theorem loadResumeInput_inputGate (body : ResumeRequest) :
    (∀ t, body.text = some t → 0 < (jsTrim t).length →
      loadResumeInput true body =
        LoadResult.ok { buffer := t, filename := "resume.txt", contentType := "text/plain" }) ∧
    ((body.text = none ∨ ∃ t, body.text = some t ∧ (jsTrim t).length = 0) →
      (∀ b f, body.bucket = some b → body.filePath = some f → b ≠ "" → f ≠ "" →
        loadResumeInput true body = LoadResult.download b f) ∧
      ((body.bucket = none ∨ body.bucket = some "" ∨ body.filePath = none ∨
          body.filePath = some "") →
        loadResumeInput true body =
          LoadResult.err "Provide either `text` or (`bucket` and `filePath`)")) := by
  constructor
  · intro t ht htrim
    have hne : t ≠ "" := by
      intro h0
      rw [h0] at htrim
      exact absurd htrim (by decide)
    unfold loadResumeInput
    rw [ht]
    simp [hne, htrim]
  · intro htext
    have hcond : (match body.text with
        | some t => decide (t ≠ "") && decide (0 < (jsTrim t).length)
        | none => false) = false := by
      rcases htext with hn | ⟨t, ht, htr⟩
      · rw [hn]
      · rw [ht]
        simp [htr]
    constructor
    · intro b f hb hf hbne hfne
      unfold loadResumeInput
      rw [hcond]
      simp [hb, hf, hbne, hfne]
    · intro hmiss
      unfold loadResumeInput
      rw [hcond]
      rcases hmiss with h | h | h | h
      · simp [h]
      · cases hfp : body.filePath <;> simp [h, hfp]
      · cases hbk : body.bucket <;> simp [h, hbk]
      · cases hbk : body.bucket <;> simp [h, hbk]

/-- Witness for C10: a whitespace-only text (form feed and spaces, all in
the JavaScript trim set) with no bucket or file path fails with the
provide-either error. -/
theorem loadResumeInput_inputGate_witness :
    loadResumeInput true { text := some " \x0C ", bucket := none, filePath := none } =
      LoadResult.err "Provide either `text` or (`bucket` and `filePath`)" :=
  ((loadResumeInput_inputGate { text := some " \x0C ", bucket := none, filePath := none }).2
    (Or.inr ⟨" \x0C ", rfl, by decide⟩)).2 (Or.inl rfl)
